import Mathlib

/-
Verification development for the upload-and-poll task lifecycle coordinator of
the ai-transcriber client (uploader.py).

Shallow embedding conventions:
* Python dictionaries returned by the status API are modelled by the structure
  `StatusDict`, one `Option` field per key the code reads or writes; a key is
  present iff the corresponding field is `some`.
* The network is an oracle passed explicitly: for `upload_file` the outcome of
  the single multipart POST (`PostOutcome`), for `get_task_status` the outcome
  of the single GET (`GetOutcome`), for the connectivity probes a function
  `String → Option Nat` mapping a URL to `some status` or `none` when the GET
  raises a requests exception.
* `upload_file` additionally returns an execution trace (`UploadTrace`):
  how many HTTP requests were issued, whether the local file handle was opened
  and whether it was closed before returning, and how many events the
  registered progress sink received.  These trace fields mirror the side
  effects of the source line by line.
* The polling loop of `wait_for_completion` advances wall-clock time only at
  the `time.sleep(poll_interval)` call, so elapsed time at the k-th poll is
  k * poll_interval.  The loop is written with an explicit fuel argument; the
  top level passes `max_wait_time + 1` fuel, which is exact for any positive
  poll interval: when fuel reaches 0 the poll index is `max_wait_time + 1`,
  where the deadline condition is already false, and the fuel-exhausted branch
  returns the very timeout dictionary the source's deadline exit returns.
-/

/-- JSON body of the upload endpoint's 200 response; the code only reads its
`task_id` key (`result_data.get('task_id')`, `None` when absent or null). -/
structure UploadRespDict where
  task_id : Option String := none
deriving DecidableEq

/-- Value stored in `UploadResult.server_response`: the parsed JSON dict on a
200 response, the raw response text on a non-200 response. -/
inductive ServerResponseVal where
  | jsonDict (d : UploadRespDict)
  | text (t : String)
deriving DecidableEq

/-- The `UploadResult` dataclass of uploader.py. -/
structure UploadResult where
  success : Bool
  task_id : Option String := none
  message : Option String := none
  error : Option String := none
  server_response : Option ServerResponseVal := none
deriving DecidableEq

/-- An HTTP response to the multipart POST: status code, raw text, and the
result of `response.json()` (`Except.error` when the body is not JSON, in
which case the source raises inside the `try` and lands in the generic
`except Exception` handler). -/
structure HttpResponse where
  status : Nat
  text : String
  json : Except String UploadRespDict

/-- Outcome of `self.session.post(...)` in `upload_file`: a response, or one
of the exception classes the source catches. -/
inductive PostOutcome where
  | ok (r : HttpResponse)
  | timeout
  | connError
  | exc (msg : String)

/-- Result of `upload_file` together with its observable side effects. -/
structure UploadTrace where
  result : UploadResult
  netCalls : Nat
  fileOpened : Bool
  fileClosed : Bool
  sinkCalls : Nat
deriving DecidableEq

/-- `ServerUploader.upload_file` (uploader.py lines 138-252).
`fileExists` models `file_path.exists()`; `out` is the outcome of the single
POST.  Trace notes, matching the source:
* missing file: early return before `open` and before any request;
* the handle opened at line 164 is closed at line 210 only on the path where
  `session.post` returned a response; the three `except` handlers return
  without closing it (the source has no `try/finally` or `with`);
* the nested `upload_callback` (lines 187-197) is defined but never passed to
  `session.post`, so the registered progress sink is never invoked:
  `sinkCalls` is 0 on every path. -/
def upload_file (fileExists : Bool) (fileName : String) (out : PostOutcome) : UploadTrace :=
  if !fileExists then
    { result := { success := false, error := some ("文件不存在: " ++ fileName) },
      netCalls := 0, fileOpened := false, fileClosed := false, sinkCalls := 0 }
  else
    match out with
    | .ok r =>
      if r.status = 200 then
        match r.json with
        | .ok d =>
          { result := { success := true, task_id := d.task_id,
                        message := some "文件上传并开始转录",
                        server_response := some (.jsonDict d) },
            netCalls := 1, fileOpened := true, fileClosed := true, sinkCalls := 0 }
        | .error m =>
          { result := { success := false, error := some ("上传异常: " ++ m) },
            netCalls := 1, fileOpened := true, fileClosed := true, sinkCalls := 0 }
      else
        { result := { success := false,
                      error := some ("HTTP " ++ toString r.status ++ ": " ++ r.text),
                      server_response := some (.text r.text) },
          netCalls := 1, fileOpened := true, fileClosed := true, sinkCalls := 0 }
    | .timeout =>
      { result := { success := false, error := some "上传超时" },
        netCalls := 1, fileOpened := true, fileClosed := false, sinkCalls := 0 }
    | .connError =>
      { result := { success := false, error := some "无法连接到服务器" },
        netCalls := 1, fileOpened := true, fileClosed := false, sinkCalls := 0 }
    | .exc m =>
      { result := { success := false, error := some ("上传异常: " ++ m) },
        netCalls := 1, fileOpened := true, fileClosed := false, sinkCalls := 0 }

/-- A task-status dictionary, one `Option` field per key the client reads
(`status`, `progress`, `error`) or writes (`task_id`, `timeout`). -/
structure StatusDict where
  status : Option String := none
  progress : Option Nat := none
  error : Option String := none
  task_id : Option String := none
  timeout : Option Bool := none
deriving DecidableEq

/-- Outcome of the GET in `get_task_status`: a response (with the result of
`response.json()`), or a raised exception. -/
inductive GetOutcome where
  | resp (status : Nat) (text : String) (json : Except String StatusDict)
  | exc (msg : String)

/-- `ServerUploader.get_task_status` (uploader.py lines 254-270): 200 returns
the parsed body; any other status returns an error dictionary; any exception
(including a JSON parse failure on a 200 body) returns an error dictionary. -/
def get_task_status (o : GetOutcome) : StatusDict :=
  match o with
  | .resp status text js =>
    if status = 200 then
      match js with
      | .ok d => d
      | .error m => { error := some ("获取任务状态异常: " ++ m) }
    else
      { error := some ("HTTP " ++ toString status ++ ": " ++ text) }
  | .exc m => { error := some ("获取任务状态异常: " ++ m) }

/-- The dictionary `wait_for_completion` synthesizes when the deadline
expires (uploader.py lines 326-330). -/
def timeout_result (taskId : String) : StatusDict :=
  { error := some ("等待超时，任务可能仍在进行中。任务ID: " ++ taskId),
    task_id := some taskId,
    timeout := some true }

/-- `status_data.get('status', 'unknown')`. -/
def statusTag (sd : StatusDict) : String :=
  sd.status.getD "unknown"

/-- The polling loop of `wait_for_completion` (uploader.py lines 291-330).
`fetch k` is the dictionary returned by the k-th call to `get_task_status`;
`k * pollInterval` is the elapsed wall-clock time when the k-th poll is about
to run (time advances only at `time.sleep`).  The returned `Nat` is the
number of polls performed.  `fuel` bounds the recursion; the caller passes
`maxWaitTime + 1`, which, for any positive `pollInterval`, is reached only
when the deadline condition is already false, so the fuel-exhausted branch
coincides with the source's deadline exit. -/
def poll_loop (fetch : Nat → StatusDict) (taskId : String)
    (pollInterval maxWaitTime : Nat) : Nat → Nat → StatusDict × Nat
  | 0, k => (timeout_result taskId, k)
  | fuel + 1, k =>
    if k * pollInterval < maxWaitTime then
      let sd := fetch k
      if sd.error.isSome then
        (sd, k + 1)
      else if statusTag sd = "completed" then
        (sd, k + 1)
      else if statusTag sd = "failed" then
        (sd, k + 1)
      else
        poll_loop fetch taskId pollInterval maxWaitTime fuel (k + 1)
    else
      (timeout_result taskId, k)

/-- `ServerUploader.wait_for_completion` (uploader.py lines 272-330), returning
the final status dictionary and the number of polls performed. -/
def wait_for_completion (fetch : Nat → StatusDict) (taskId : String)
    (pollInterval maxWaitTime : Nat) : StatusDict × Nat :=
  poll_loop fetch taskId pollInterval maxWaitTime (maxWaitTime + 1) 0

/-- A poll response that keeps the loop going: no `error` key and a `pending`
status tag. -/
def pendingPoll (sd : StatusDict) : Prop :=
  sd.error = none ∧ sd.status = some "pending"

/-- `response.status_code in [200, 404]` on a probe URL; `none` models a
raised requests exception (treated as not alive, the loop continues). -/
def alive (oracle : String → Option Nat) (u : String) : Bool :=
  match oracle u with
  | some s => s == 200 || s == 404
  | none => false

/-- `base_url.rstrip('/')`. -/
def rstripSlash (s : String) : String :=
  String.mk ((s.data.reverse.dropWhile (fun c => c == '/')).reverse)

/-- The four health-check candidates built from a base URL that already has no
trailing slash (shape used verbatim in `auto_detect_server`). -/
def localCandidates (base : String) : List String :=
  [base ++ "/health", base ++ "/api/health", base ++ "/", base]

/-- The four health-check candidates of `test_connection`: the configured URL
is first stripped of trailing slashes. -/
def healthCandidates (serverUrl : String) : List String :=
  localCandidates (rstripSlash serverUrl)

/-- Probe a candidate list in order; return the first alive URL (if any) and
the log of URLs actually requested, in order. -/
def probeFirst (oracle : String → Option Nat) : List String → Option String × List String
  | [] => (none, [])
  | u :: rest =>
    if alive oracle u then
      (some u, [u])
    else
      let r := probeFirst oracle rest
      (r.fst, u :: r.snd)

/-- The fixed port list of `auto_detect_server` (uploader.py line 70). -/
def local_ports : List Nat :=
  [8000, 8001, 8002, 8003, 8888, 8889, 5000, 3000]

/-- Inner loop of `auto_detect_server`: for each port, probe the candidate
list of `http://localhost:<port>`; the first success returns that base URL
(not the health path).  Also returns the request log. -/
def detectFromPorts (oracle : String → Option Nat) : List Nat → Option String × List String
  | [] => (none, [])
  | p :: rest =>
    let base := "http://localhost:" ++ toString p
    let pr := probeFirst oracle (localCandidates base)
    match pr.fst with
    | some _ => (some base, pr.snd)
    | none =>
      let r := detectFromPorts oracle rest
      (r.fst, pr.snd ++ r.snd)

/-- `ServerUploader.auto_detect_server` (uploader.py lines 65-95). -/
def auto_detect_server (oracle : String → Option Nat) : Option String × List String :=
  detectFromPorts oracle local_ports

/-- Python's substring test `pat in s`, on character lists. -/
def startsWithChars : List Char → List Char → Bool
  | _, [] => true
  | [], _ :: _ => false
  | c :: cs, p :: ps => c == p && startsWithChars cs ps

/-- Substring containment on character lists. -/
def containsChars (pat : List Char) : List Char → Bool
  | [] => startsWithChars [] pat
  | c :: cs => startsWithChars (c :: cs) pat || containsChars pat cs

/-- `pat in s` for strings, as used at uploader.py line 121. -/
def strContains (s pat : String) : Bool :=
  containsChars pat.data s.data

/-- Result of `test_connection`: the returned boolean, the (possibly updated)
`config.server_url`, the log of URLs requested, and whether the port
autodetection fallback was entered. -/
structure ConnResult where
  ok : Bool
  serverUrl : String
  requests : List String
  autoDetectAttempted : Bool
deriving DecidableEq

/-- `ServerUploader.test_connection` (uploader.py lines 97-136): probe the
four candidates of the configured URL; on failure, fall back to
`auto_detect_server` exactly when the configured URL contains the substring
`localhost` or `127.0.0.1`, updating `config.server_url` on success. -/
def test_connection (oracle : String → Option Nat) (serverUrl : String) : ConnResult :=
  match probeFirst oracle (healthCandidates serverUrl) with
  | (some _, log) =>
    { ok := true, serverUrl := serverUrl, requests := log, autoDetectAttempted := false }
  | (none, log) =>
    if strContains serverUrl "localhost" || strContains serverUrl "127.0.0.1" then
      match auto_detect_server oracle with
      | (some u, log2) =>
        { ok := true, serverUrl := u, requests := log ++ log2, autoDetectAttempted := true }
      | (none, log2) =>
        { ok := false, serverUrl := serverUrl, requests := log ++ log2, autoDetectAttempted := true }
    else
      { ok := false, serverUrl := serverUrl, requests := log, autoDetectAttempted := false }

/-- Definition following the spec's words (glossary: a loopback host is "a
configured address referring to the local machine"): the host component of
the URL is exactly `localhost` or `127.0.0.1`.  Used only to state the C6
counterexample; the code itself tests substring containment instead. -/
def spec_isLoopbackHost (url : String) : Bool :=
  let cs := url.data
  let rest :=
    if startsWithChars cs "http://".data then cs.drop 7
    else if startsWithChars cs "https://".data then cs.drop 8
    else cs
  let host := rest.takeWhile (fun c => c != ':' && c != '/')
  host == "localhost".data || host == "127.0.0.1".data

/-- Oracle for the C7 witness: only `http://srv/health` answers, with 200. -/
def c7_oracle : String → Option Nat :=
  fun u => if u = "http://srv/health" then some 200 else none

/-- Concrete 200 response for the C2 witness. -/
def c2_r200 : HttpResponse :=
  { status := 200, text := "", json := Except.ok { task_id := some "abc123" } }

/-- Concrete 500 response for the C2 witness. -/
def c2_r500 : HttpResponse :=
  { status := 500, text := "oops", json := Except.error "not json" }

/-- One loop step that continues: before the deadline, no `error` key and a
non-terminal status tag. -/
theorem poll_loop_cont (fetch : Nat → StatusDict) (tid : String)
    (p m fuel k : Nat) (hk : k * p < m) (he : (fetch k).error = none)
    (h1 : statusTag (fetch k) ≠ "completed") (h2 : statusTag (fetch k) ≠ "failed") :
    poll_loop fetch tid p m (fuel + 1) k = poll_loop fetch tid p m fuel (k + 1) := by
  simp [poll_loop, hk, he, h1, h2]

/-- One loop step that returns a `completed` payload. -/
theorem poll_loop_term_completed (fetch : Nat → StatusDict) (tid : String)
    (p m fuel k : Nat) (hk : k * p < m) (he : (fetch k).error = none)
    (hc : statusTag (fetch k) = "completed") :
    poll_loop fetch tid p m (fuel + 1) k = (fetch k, k + 1) := by
  simp [poll_loop, hk, he, hc]

/-- One loop step that returns a poll payload carrying an `error` key. -/
theorem poll_loop_term_error (fetch : Nat → StatusDict) (tid : String)
    (p m fuel k : Nat) (hk : k * p < m) (he : (fetch k).error.isSome = true) :
    poll_loop fetch tid p m (fuel + 1) k = (fetch k, k + 1) := by
  simp [poll_loop, hk, he]

/-- With the default interval 5 and deadline 600, an all-pending fetch drives
the loop to the deadline exit after exactly 120 polls. -/
theorem poll_loop_all_pending (g : Nat → StatusDict) (tid : String)
    (hg : ∀ k, pendingPoll (g k)) :
    ∀ fuel k, 120 ≤ fuel + k → k ≤ 120 →
      poll_loop g tid 5 600 fuel k = (timeout_result tid, 120) := by
  intro fuel
  induction fuel with
  | zero =>
    intro k h1 h2
    have hk : k = 120 := by omega
    subst hk
    simp [poll_loop]
  | succ n ih =>
    intro k h1 h2
    by_cases hk : k * 5 < 600
    · have hval := hg k
      rw [poll_loop_cont g tid 5 600 n k hk hval.1
        (by simp [statusTag, hval.2]) (by simp [statusTag, hval.2])]
      exact ih (k + 1) (by omega) (by omega)
    · have hke : k = 120 := by omega
      subst hke
      simp [poll_loop, hk]

/-- C1: with the default interval (5s) and deadline (600s), a poller that
fetches `pending`, `pending`, `completed` returns the terminal-success payload
after exactly 3 polls; and a poller that only ever fetches `pending` (so its
polls exceed the deadline) returns the synthesized timeout dictionary after
120 polls, carrying the original task identifier and with a status tag that
is neither `completed` nor `failed`. -/
theorem c1_poller_three_polls_then_success_and_all_pending_timeout
    (f g : Nat → StatusDict) (tid : String)
    (hf0 : pendingPoll (f 0)) (hf1 : pendingPoll (f 1))
    (hf2 : (f 2).error = none ∧ (f 2).status = some "completed")
    (hg : ∀ k, pendingPoll (g k)) :
    wait_for_completion f tid 5 600 = (f 2, 3)
    ∧ wait_for_completion g tid 5 600 = (timeout_result tid, 120)
    ∧ (wait_for_completion g tid 5 600).fst.task_id = some tid
    ∧ (wait_for_completion g tid 5 600).fst.status ≠ some "completed"
    ∧ (wait_for_completion g tid 5 600).fst.status ≠ some "failed" := by
  have hgres : wait_for_completion g tid 5 600 = (timeout_result tid, 120) := by
    show poll_loop g tid 5 600 (600 + 1) 0 = (timeout_result tid, 120)
    exact poll_loop_all_pending g tid hg (600 + 1) 0 (by omega) (by omega)
  refine ⟨?_, hgres, ?_, ?_, ?_⟩
  · show poll_loop f tid 5 600 (600 + 1) 0 = (f 2, 3)
    rw [poll_loop_cont f tid 5 600 600 0 (by omega) hf0.1
      (by simp [statusTag, hf0.2]) (by simp [statusTag, hf0.2])]
    have e1 : poll_loop f tid 5 600 600 1 = poll_loop f tid 5 600 (599 + 1) 1 := rfl
    rw [e1, poll_loop_cont f tid 5 600 599 1 (by omega) hf1.1
      (by simp [statusTag, hf1.2]) (by simp [statusTag, hf1.2])]
    have e2 : poll_loop f tid 5 600 599 2 = poll_loop f tid 5 600 (598 + 1) 2 := rfl
    rw [e2, poll_loop_term_completed f tid 5 600 598 2 (by omega) hf2.1
      (by simp [statusTag, hf2.2])]
  · rw [hgres]; rfl
  · rw [hgres]; simp [timeout_result]
  · rw [hgres]; simp [timeout_result]

/-- Witness for C1 at concrete fetch sequences. -/
theorem c1_witness :
    wait_for_completion
        (fun k => if k = 2 then { status := some "completed", progress := some 100 }
                  else { status := some "pending", progress := some 30 })
        "task-1" 5 600
      = ((fun k => if k = 2 then ({ status := some "completed", progress := some 100 } : StatusDict)
                   else { status := some "pending", progress := some 30 }) 2, 3)
    ∧ wait_for_completion (fun _ => { status := some "pending", progress := some 30 })
        "task-1" 5 600 = (timeout_result "task-1", 120)
    ∧ (wait_for_completion (fun _ => ({ status := some "pending", progress := some 30 } : StatusDict))
        "task-1" 5 600).fst.task_id = some "task-1"
    ∧ (wait_for_completion (fun _ => ({ status := some "pending", progress := some 30 } : StatusDict))
        "task-1" 5 600).fst.status ≠ some "completed"
    ∧ (wait_for_completion (fun _ => ({ status := some "pending", progress := some 30 } : StatusDict))
        "task-1" 5 600).fst.status ≠ some "failed" :=
  c1_poller_three_polls_then_success_and_all_pending_timeout
    (fun k => if k = 2 then { status := some "completed", progress := some 100 }
              else { status := some "pending", progress := some 30 })
    (fun _ => { status := some "pending", progress := some 30 })
    "task-1" (by constructor <;> rfl) (by constructor <;> rfl)
    (by constructor <;> rfl) (fun k => ⟨rfl, rfl⟩)

/-- C8: a network error while fetching the task status (a raised exception in
`get_task_status`) makes `wait_for_completion` return that error dictionary
to the caller immediately, after a single poll, with no transparent retry of
the status fetch. -/
theorem c8_poll_fetch_error_returned_immediately
    (os : Nat → GetOutcome) (tid msg : String) (p m : Nat)
    (hm : 0 < m) (h0 : os 0 = GetOutcome.exc msg) :
    wait_for_completion (fun k => get_task_status (os k)) tid p m
      = (get_task_status (os 0), 1)
    ∧ (get_task_status (os 0)).error.isSome = true := by
  constructor
  · show poll_loop (fun k => get_task_status (os k)) tid p m (m + 1) 0
      = (get_task_status (os 0), 1)
    exact poll_loop_term_error (fun k => get_task_status (os k)) tid p m m 0
      (by omega) (by show (get_task_status (os 0)).error.isSome = true; rw [h0]; rfl)
  · rw [h0]; rfl

/-- Witness for C8 at a concrete exception-raising fetch. -/
theorem c8_witness :
    wait_for_completion (fun k => get_task_status ((fun _ => GetOutcome.exc "connection refused") k))
        "task-2" 5 600
      = (get_task_status ((fun _ => GetOutcome.exc "connection refused") 0), 1)
    ∧ (get_task_status ((fun _ => GetOutcome.exc "connection refused") 0)).error.isSome = true :=
  c8_poll_fetch_error_returned_immediately
    (fun _ => GetOutcome.exc "connection refused") "task-2" "connection refused"
    5 600 (by omega) rfl

/-- C2 counterexample: a 200 response whose JSON body has no `task_id` field
still makes `upload_file` return success (with a `none` identifier), so
"success iff the body contains a non-null task_id" is false on the code. -/
theorem c2_counterexample :
    (upload_file true "a.mp3"
        (PostOutcome.ok { status := 200, text := "", json := Except.ok { task_id := none } })).result.success
      = true
    ∧ (upload_file true "a.mp3"
        (PostOutcome.ok { status := 200, text := "", json := Except.ok { task_id := none } })).result.task_id
      = none
    ∧ ({ task_id := none } : UploadRespDict).task_id.isSome = false := by
  decide

/-- C2 (amended): for a 200 response with a JSON-parseable body, `upload_file`
returns success unconditionally, carrying the body's `task_id` field (which
may be absent); for a non-200 response it returns failure with the error text
`"HTTP <status>: <body>"`. -/
theorem c2_http_status_result_mapping (fileName : String)
    (r1 r2 : HttpResponse) (d : UploadRespDict)
    (h1s : r1.status = 200) (h1j : r1.json = Except.ok d)
    (h2 : r2.status ≠ 200) :
    ((upload_file true fileName (PostOutcome.ok r1)).result.success = true
      ∧ (upload_file true fileName (PostOutcome.ok r1)).result.task_id = d.task_id)
    ∧ ((upload_file true fileName (PostOutcome.ok r2)).result.success = false
      ∧ (upload_file true fileName (PostOutcome.ok r2)).result.error
          = some ("HTTP " ++ toString r2.status ++ ": " ++ r2.text)) := by
  constructor
  · simp [upload_file, h1s, h1j]
  · simp [upload_file, h2]

/-- Witness for C2 at a concrete 200 response and a concrete 500 response. -/
theorem c2_witness :
    ((upload_file true "a.mp3" (PostOutcome.ok c2_r200)).result.success = true
      ∧ (upload_file true "a.mp3" (PostOutcome.ok c2_r200)).result.task_id
          = ({ task_id := some "abc123" } : UploadRespDict).task_id)
    ∧ ((upload_file true "a.mp3" (PostOutcome.ok c2_r500)).result.success = false
      ∧ (upload_file true "a.mp3" (PostOutcome.ok c2_r500)).result.error
          = some ("HTTP " ++ toString c2_r500.status ++ ": " ++ c2_r500.text)) :=
  c2_http_status_result_mapping "a.mp3" c2_r200 c2_r500
    { task_id := some "abc123" } rfl rfl (by decide)

/-- C3: when the local path does not exist, `upload_file` returns failure
(with the file-missing message) and issues zero HTTP requests. -/
theorem c3_missing_file_fails_without_network (fileName : String) (out : PostOutcome) :
    (upload_file false fileName out).result.success = false
    ∧ (upload_file false fileName out).netCalls = 0
    ∧ (upload_file false fileName out).result.error
        = some ("文件不存在: " ++ fileName) :=
  ⟨rfl, rfl, rfl⟩

/-- C4 counterexample: on a 200 response whose body lacks `task_id`, the
returned `UploadResult` has `success = true` but no task identifier, so
"task identifier present iff success" is false on the code. -/
theorem c4_counterexample :
    (upload_file true "b.mp3"
        (PostOutcome.ok { status := 200, text := "", json := Except.ok { task_id := none } })).result.success
      = true
    ∧ (upload_file true "b.mp3"
        (PostOutcome.ok { status := 200, text := "", json := Except.ok { task_id := none } })).result.task_id.isSome
      = false := by
  decide

/-- C4 (amended): every `UploadResult` returned by `upload_file` has its error
description populated iff the upload failed, and its task identifier
populated only when the upload succeeded (on success the identifier is the
body's `task_id` and may still be absent). -/
theorem c4_result_population_invariant (fileExists : Bool) (fileName : String)
    (out : PostOutcome) :
    ((upload_file fileExists fileName out).result.error.isSome = true
      ↔ (upload_file fileExists fileName out).result.success = false)
    ∧ ((upload_file fileExists fileName out).result.task_id.isSome = true
      → (upload_file fileExists fileName out).result.success = true) := by
  cases fileExists with
  | false => simp [upload_file]
  | true =>
    cases out with
    | ok r =>
      by_cases hs : r.status = 200
      · cases hj : r.json with
        | ok d => simp [upload_file, hs, hj]
        | error m => simp [upload_file, hs, hj]
      · simp [upload_file, hs]
    | timeout => simp [upload_file]
    | connError => simp [upload_file]
    | exc m => simp [upload_file]

/-- C5: evaluation at the failing input.  When the POST raises a connection
error, the file handle opened before the request is never closed —
`upload_file` returns from the `except` handler with the handle still open
(the source has no `try/finally`), contradicting the claim that the handle
is closed on every exit path. -/
theorem c5_handle_leak_on_connection_error :
    (upload_file true "a.wav" PostOutcome.connError).fileOpened = true
    ∧ (upload_file true "a.wav" PostOutcome.connError).fileClosed = false
    ∧ (upload_file true "a.wav" PostOutcome.connError).result.success = false
    ∧ (upload_file true "a.wav" PostOutcome.timeout).fileClosed = false
    ∧ (upload_file true "a.wav" (PostOutcome.exc "boom")).fileClosed = false := by
  decide

/-- C9: evaluation of the claim's subject.  `upload_file` never invokes the
registered progress sink: the nested `upload_callback` is defined but never
handed to `session.post`, so on every execution — any file, any outcome —
the sink receives zero events, contradicting the claim that incremental
progress callbacks are emitted during the multipart POST. -/
theorem c9_progress_sink_never_invoked (fileExists : Bool) (fileName : String)
    (out : PostOutcome) :
    (upload_file fileExists fileName out).sinkCalls = 0 := by
  cases fileExists with
  | false => rfl
  | true =>
    cases out with
    | ok r =>
      by_cases hs : r.status = 200
      · cases hj : r.json with
        | ok d => simp [upload_file, hs, hj]
        | error m => simp [upload_file, hs, hj]
      · simp [upload_file, hs]
    | timeout => rfl
    | connError => rfl
    | exc m => rfl

/-- A GET outcome the claim C10 calls a failure: a non-200 HTTP status or a
raised transport exception. -/
def failure_outcome : GetOutcome → Bool
  | .resp status _ _ => !(status == 200)
  | .exc _ => true

/-- C10: `get_task_status` is total (a total function of its oracle in this
embedding — every exception is caught), and whenever the HTTP status is not
200 or a transport exception occurs, the returned dictionary carries an
`error` key describing the failure. -/
theorem c10_get_task_status_failure_has_error_key (o : GetOutcome)
    (h : failure_outcome o = true) :
    (get_task_status o).error.isSome = true := by
  cases o with
  | resp status text js =>
    have hs : ¬ status = 200 := by
      intro hc
      rw [hc] at h
      simp [failure_outcome] at h
    simp [get_task_status, hs]
  | exc m => rfl

/-- Witness for C10 at a concrete 500 response. -/
theorem c10_witness :
    (get_task_status (GetOutcome.resp 500 "server error" (Except.error "bad json"))).error.isSome
      = true :=
  c10_get_task_status_failure_has_error_key
    (GetOutcome.resp 500 "server error" (Except.error "bad json")) (by decide)

/-- When no candidate is alive, the probe visits the whole list and finds
nothing. -/
theorem probeFirst_all_dead (oracle : String → Option Nat) :
    ∀ l : List String, (∀ u ∈ l, alive oracle u = false) →
      probeFirst oracle l = (none, l) := by
  intro l
  induction l with
  | nil => intro _; rfl
  | cons u rest ih =>
    intro h
    have hu : alive oracle u = false := h u (by simp)
    have hrest := ih (fun v hv => h v (by simp [hv]))
    simp [probeFirst, hu, hrest]

/-- When some candidate is alive, the probe finds one. -/
theorem probeFirst_finds_of_alive (oracle : String → Option Nat) :
    ∀ l : List String, (∃ u ∈ l, alive oracle u = true) →
      (probeFirst oracle l).fst.isSome = true := by
  intro l
  induction l with
  | nil => intro h; simp at h
  | cons u rest ih =>
    intro h
    by_cases hu : alive oracle u = true
    · simp [probeFirst, hu]
    · have hrest : ∃ v ∈ rest, alive oracle v = true := by
        rcases h with ⟨v, hv, hav⟩
        rcases List.mem_cons.mp hv with hvu | hvr
        · rw [hvu] at hav; exact absurd hav hu
        · exact ⟨v, hvr, hav⟩
      have := ih hrest
      simp [probeFirst, hu, this]

/-- C6 counterexample: the URL `http://xlocalhost.example.com` is not a
loopback host (its host component is neither `localhost` nor `127.0.0.1`),
yet when it is unreachable `test_connection` enters port autodetection and
sends a request to a localhost port — because the code tests substring
containment of `localhost` in the whole URL, not the host component. -/
theorem c6_counterexample :
    spec_isLoopbackHost "http://xlocalhost.example.com" = false
    ∧ (test_connection (fun _ => none) "http://xlocalhost.example.com").ok = false
    ∧ (test_connection (fun _ => none) "http://xlocalhost.example.com").autoDetectAttempted = true
    ∧ ((test_connection (fun _ => none) "http://xlocalhost.example.com").requests.contains
        "http://localhost:8000/health") = true := by
  decide

/-- C6 (amended): port autodetection is attempted only when the configured
URL contains the substring `localhost` or `127.0.0.1`; for every configured
URL containing neither substring whose four health candidates all fail,
`test_connection` returns failure having requested exactly those four
candidate URLs — in particular nothing on a localhost port. -/
theorem c6_no_autodetect_without_localhost_substring
    (oracle : String → Option Nat) (url : String)
    (h1 : strContains url "localhost" = false)
    (h2 : strContains url "127.0.0.1" = false)
    (hdead : ∀ u ∈ healthCandidates url, alive oracle u = false) :
    (test_connection oracle url).ok = false
    ∧ (test_connection oracle url).autoDetectAttempted = false
    ∧ (test_connection oracle url).requests = healthCandidates url := by
  have hpf : probeFirst oracle (healthCandidates url) = (none, healthCandidates url) :=
    probeFirst_all_dead oracle (healthCandidates url) hdead
  simp [test_connection, hpf, h1, h2]

/-- Witness for C6 at a concrete non-localhost URL and a dead network. -/
theorem c6_witness :
    (test_connection (fun _ => none) "http://example.com").ok = false
    ∧ (test_connection (fun _ => none) "http://example.com").autoDetectAttempted = false
    ∧ (test_connection (fun _ => none) "http://example.com").requests
        = healthCandidates "http://example.com" :=
  c6_no_autodetect_without_localhost_substring (fun _ => none) "http://example.com"
    (by decide) (by decide) (by decide)

/-- C7: when some health candidate of the configured URL answers 200 or 404,
`test_connection` returns success and leaves `config.server_url` unchanged;
hence a repeated call (against the unchanged URL and the same network)
returns the very same result — resolution is idempotent. -/
theorem c7_locator_success_idempotent (oracle : String → Option Nat) (url : String)
    (h : ∃ u ∈ healthCandidates url, alive oracle u = true) :
    (test_connection oracle url).ok = true
    ∧ (test_connection oracle url).serverUrl = url
    ∧ test_connection oracle ((test_connection oracle url).serverUrl)
        = test_connection oracle url := by
  have hsome := probeFirst_finds_of_alive oracle (healthCandidates url) h
  rcases hq : probeFirst oracle (healthCandidates url) with ⟨found, log⟩
  rw [hq] at hsome
  cases found with
  | none => simp at hsome
  | some w =>
    have hres : test_connection oracle url
        = { ok := true, serverUrl := url, requests := log, autoDetectAttempted := false } := by
      simp [test_connection, hq]
    refine ⟨by rw [hres], by rw [hres], ?_⟩
    rw [hres]
    exact hres

/-- Witness for C7 at a concrete reachable server. -/
theorem c7_witness :
    (test_connection c7_oracle "http://srv").ok = true
    ∧ (test_connection c7_oracle "http://srv").serverUrl = "http://srv"
    ∧ test_connection c7_oracle ((test_connection c7_oracle "http://srv").serverUrl)
        = test_connection c7_oracle "http://srv" :=
  c7_locator_success_idempotent c7_oracle "http://srv" (by decide)
